import Mathlib

/-
  Verification development for the VA-API HDR-to-SDR tone-mapping renderer
  (src/libweston/va_renderer.c).

  Shallow embedding: the renderer session is an explicit record, external
  accelerator (libva) and GPU allocator (gbm) calls are modelled by an
  environment record supplying each call's result, and every external call
  performed by the code is recorded in an event trace.  Machine integers are
  Nat (all values involved are non-negative C ints / uint32_t handles).
-/

/-! ### Constants from drm_fourcc.h, va.h, va_vpp.h -/

/-- The fourcc_code packing macro from drm_fourcc.h (arguments are the ASCII
codes of the four characters, little-endian packing). -/
def fourcc_code (a b c d : Nat) : Nat :=
  a + 256 * b + 65536 * c + 16777216 * d

def DRM_FORMAT_NV12 : Nat := fourcc_code 0x4e 0x56 0x31 0x32
def DRM_FORMAT_YVU420 : Nat := fourcc_code 0x59 0x56 0x31 0x32
def DRM_FORMAT_YUV420 : Nat := fourcc_code 0x59 0x55 0x31 0x32
def DRM_FORMAT_UYVY : Nat := fourcc_code 0x55 0x59 0x56 0x59
def DRM_FORMAT_YUYV : Nat := fourcc_code 0x59 0x55 0x59 0x56
def DRM_FORMAT_YVYU : Nat := fourcc_code 0x59 0x56 0x59 0x55
def DRM_FORMAT_VYUY : Nat := fourcc_code 0x56 0x59 0x55 0x59
def DRM_FORMAT_YUV422 : Nat := fourcc_code 0x59 0x55 0x31 0x36
def DRM_FORMAT_YUV444 : Nat := fourcc_code 0x59 0x55 0x32 0x34
def DRM_FORMAT_AYUV : Nat := fourcc_code 0x41 0x59 0x55 0x56

/-- DRM_FORMAT_P010, defined in the source itself when the header lacks it:
fourcc_code of P, 0, 1, 0. -/
def DRM_FORMAT_P010 : Nat := fourcc_code 0x50 0x30 0x31 0x30

/-- DRM_FORMAT_MOD_INVALID from drm_fourcc.h. -/
def DRM_FORMAT_MOD_INVALID : Nat := 0x00ffffffffffffff

def VA_RT_FORMAT_YUV420 : Nat := 0x00000001
def VA_RT_FORMAT_YUV422 : Nat := 0x00000002
def VA_RT_FORMAT_YUV444 : Nat := 0x00000004

def VA_FOURCC_NV12 : Nat := fourcc_code 0x4e 0x56 0x31 0x32
def VA_FOURCC_YV12 : Nat := fourcc_code 0x59 0x56 0x31 0x32
def VA_FOURCC_I420 : Nat := fourcc_code 0x49 0x34 0x32 0x30
def VA_FOURCC_YUY2 : Nat := fourcc_code 0x59 0x55 0x59 0x32
def VA_FOURCC_UYVY : Nat := fourcc_code 0x55 0x59 0x56 0x59
def VA_FOURCC_P010 : Nat := fourcc_code 0x50 0x30 0x31 0x30

def VA_INVALID_ID : Nat := 0xffffffff
def VA_STATUS_SUCCESS : Nat := 0

def VAProcFilterHighDynamicRangeToneMapping : Nat := 8
def VAProcHighDynamicRangeMetadataHDR10 : Nat := 1
def VAProcColorStandardBT2020 : Nat := 12
def VAProcPipelineParameterBufferType : Nat := 41
def VAProcFilterParameterBufferType : Nat := 42
def VA_SURFACE_ATTRIB_MEM_TYPE_DRM_PRIME : Nat := 0x20000000

/-! ### Format translators (va_renderer.c lines 108-130 and 248-274)

Each C `switch` with fall-through groups is rendered as the equivalent
if-chain over the same format constants; the `default` arm logs and falls
through to `return 0`. -/

/-- Embedding of va_drm_format_to_rt_format (va_renderer.c:108-130). -/
def va_drm_format_to_rt_format (format : Nat) : Nat :=
  if format = DRM_FORMAT_NV12 ∨ format = DRM_FORMAT_YVU420 ∨
     format = DRM_FORMAT_YUV420 ∨ format = DRM_FORMAT_UYVY ∨
     format = DRM_FORMAT_YUYV ∨ format = DRM_FORMAT_YVYU ∨
     format = DRM_FORMAT_VYUY then
    VA_RT_FORMAT_YUV420
  else if format = DRM_FORMAT_YUV422 then
    VA_RT_FORMAT_YUV422
  else if format = DRM_FORMAT_YUV444 then
    VA_RT_FORMAT_YUV444
  else if format = DRM_FORMAT_P010 then
    VA_RT_FORMAT_YUV420
  else
    0

/-- Embedding of va_drm_format_to_va_format (va_renderer.c:248-274); the
explicit YVYU/VYUY/YUV444/AYUV cases share the default arm's `return 0`. -/
def va_drm_format_to_va_format (format : Nat) : Nat :=
  if format = DRM_FORMAT_NV12 then VA_FOURCC_NV12
  else if format = DRM_FORMAT_YVU420 then VA_FOURCC_YV12
  else if format = DRM_FORMAT_YUV420 then VA_FOURCC_I420
  else if format = DRM_FORMAT_YUV422 then VA_FOURCC_YUY2
  else if format = DRM_FORMAT_UYVY then VA_FOURCC_UYVY
  else if format = DRM_FORMAT_YUYV then VA_FOURCC_YUY2
  else if format = DRM_FORMAT_P010 then VA_FOURCC_P010
  else 0

/-- The formats with a non-default arm in va_drm_format_to_rt_format. -/
def rt_supported_formats : List Nat :=
  [DRM_FORMAT_NV12, DRM_FORMAT_YVU420, DRM_FORMAT_YUV420, DRM_FORMAT_UYVY,
   DRM_FORMAT_YUYV, DRM_FORMAT_YVYU, DRM_FORMAT_VYUY, DRM_FORMAT_YUV422,
   DRM_FORMAT_YUV444, DRM_FORMAT_P010]

/-- The formats with a non-zero result in va_drm_format_to_va_format. -/
def va_supported_formats : List Nat :=
  [DRM_FORMAT_NV12, DRM_FORMAT_YVU420, DRM_FORMAT_YUV420, DRM_FORMAT_YUV422,
   DRM_FORMAT_UYVY, DRM_FORMAT_YUYV, DRM_FORMAT_P010]

/-! ### Data model

The session record mirrors `struct va_renderer` (va_renderer.c:55-62);
opaque pointers/handles (VADisplay, gbm_device, IDs) are Nats. -/

structure VaRenderer where
  gpu_fd : Nat
  va_display : Nat
  va_context : Nat
  va_config : Nat
  render_target_format : Nat
  gbm : Nat
  deriving DecidableEq, Repr

/-- weston_hdr_metadata_static, the compositor-native static HDR metadata
read field-by-field at va_renderer.c:403-419. -/
structure WestonHdrMetadataStatic where
  display_primary_r_x : Nat
  display_primary_r_y : Nat
  display_primary_g_x : Nat
  display_primary_g_y : Nat
  display_primary_b_x : Nat
  display_primary_b_y : Nat
  white_point_x : Nat
  white_point_y : Nat
  max_luminance : Nat
  min_luminance : Nat
  max_cll : Nat
  max_fall : Nat
  deriving DecidableEq, Repr

/-- The fields of dmabuf->attributes that va_get_bo_from_view reads
(va_renderer.c:170-235); only index 0 of the fd/stride/offset/modifier
arrays is inspected by the path choice. -/
structure DmabufAttributes where
  width : Nat
  height : Nat
  format : Nat
  n_planes : Nat
  flags : Nat
  fd0 : Nat
  stride0 : Nat
  offset0 : Nat
  modifier0 : Nat
  deriving DecidableEq, Repr

/-- A GPU buffer object as observed through the gbm accessors used by the
bridge (width/height/fd/plane count, per-plane stride and offset). -/
structure GbmBo where
  width : Nat
  height : Nat
  fd : Nat
  plane_count : Nat
  stride : Nat → Nat
  offset : Nat → Nat

structure WestonBuffer where
  resource : Nat
  deriving DecidableEq, Repr

/-- The view→surface accessors the renderer reads:
v->surface->buffer_ref.buffer and v->surface->hdr_metadata (null pointers
become none). -/
structure WestonSurface where
  buffer : Option WestonBuffer
  hdr_metadata : Option WestonHdrMetadataStatic
  deriving DecidableEq, Repr

structure WestonView where
  surface : WestonSurface
  deriving DecidableEq, Repr

/-! ### External-call trace and environment -/

/-- The VASurfaceAttribExternalBuffers descriptor built by the bridge
(va_renderer.c:287-307). -/
structure ExtBufDesc where
  pixel_format : Nat
  width : Nat
  height : Nat
  num_planes : Nat
  pitches : List Nat
  offsets : List Nat
  num_buffers : Nat
  buffers : List Nat
  deriving DecidableEq, Repr

/-- The creation attributes passed to the two vaCreateSurfaces calls:
the bridge passes memory type DRM_PRIME plus the external-buffer
descriptor, the destination pass passes a pixel-format attribute. -/
inductive SurfAttribs where
  | primeExt (memType : Nat) (desc : ExtBufDesc)
  | pixelFormat (fmt : Nat)
  deriving DecidableEq, Repr

/-- VAHdrMetaDataHDR10 as filled at va_renderer.c:404-419 (primaries
listed in the written order green, blue, red). -/
structure VAHdrMetaDataHDR10 where
  display_primaries_x : List Nat
  display_primaries_y : List Nat
  white_point_x : Nat
  white_point_y : Nat
  max_display_mastering_luminance : Nat
  min_display_mastering_luminance : Nat
  max_content_light_level : Nat
  max_pic_average_light_level : Nat
  deriving DecidableEq, Repr

/-- VAProcFilterParameterBufferHDRToneMapping: filter type plus HDR10
metadata payload. -/
structure FilterParamHDRTM where
  filter_type : Nat
  metadata_type : Nat
  metadata : VAHdrMetaDataHDR10
  deriving DecidableEq, Repr

/-- VARectangle. -/
structure VARect where
  x : Nat
  y : Nat
  width : Nat
  height : Nat
  deriving DecidableEq, Repr

/-- The fields of VAProcPipelineParameterBuffer the code sets. -/
structure PipelineParam where
  surface : Nat
  surface_region : VARect
  surface_color_standard : Nat
  output_region : VARect
  output_color_standard : Nat
  filters : List Nat
  num_filters : Nat
  deriving DecidableEq, Repr

/-- Payload of a vaCreateBuffer call. -/
inductive BufContent where
  | filterHDRTM (p : FilterParamHDRTM)
  | pipeline (p : PipelineParam)
  deriving DecidableEq, Repr

/-- One external call issued by the renderer.  The gbmBoDestroy and closeFd
constructors exist as release vocabulary; whether the code ever emits them
is exactly what claim C6 is about. -/
inductive Call where
  | destroyContext (ctx : Nat)
  | destroyConfig (cfg : Nat)
  | createConfig (rt_format : Nat)
  | createContext (cfg : Nat)
  | queryFilterCaps (filter_type : Nat)
  | createSurfaces (rt_format width height : Nat) (attribs : SurfAttribs)
  | createBuffer (buf_type id : Nat) (content : BufContent)
  | beginPicture (target : Nat)
  | renderPicture (buf : Nat)
  | endPicture
  | destroyBuffer (id : Nat)
  | terminate
  | gbmBoGetFd (fd : Nat)
  | gbmBoDestroy
  | closeFd (fd : Nat)
  deriving DecidableEq, Repr

/-- Results the external world (libva driver, gbm allocator, dmabuf lookup)
hands back to the renderer during one call; a none result models the
corresponding C call failing (NULL / non-success status).  For the bridge's
vaCreateSurfaces, srcSurfaceIndeterminate is the value the uninitialized
local `surface` happens to hold when that call fails without writing it. -/
structure VaEnv where
  createConfigResult : Option Nat
  createContextResult : Option Nat
  queryCapsStatus : Nat
  dmabufGet : Option DmabufAttributes
  importFdResult : Option GbmBo
  importFdModifierResult : Option GbmBo
  importWlBufferResult : Option GbmBo
  createSrcSurfaceResult : Option Nat
  srcSurfaceIndeterminate : Nat
  createDstSurfaceResult : Option Nat
  filterBufId : Nat
  pipeBufId1 : Nat
  pipeBufId2 : Nat
  begin1Status : Nat
  render1Status : Nat
  end1Status : Nat
  begin2Status : Nat
  render2Status : Nat
  end2Status : Nat

/-! ### Operations -/

/-- Environment for va_renderer_initialize: result of vaGetDisplayDRM and
the vaInitialize status. -/
structure InitEnv where
  getDisplayResult : Option Nat
  vaInitStatus : Nat

/-- Embedding of va_renderer_initialize (va_renderer.c:64-92): zalloc gives
an all-zero record, then va_display and gbm are filled in; on
vaGetDisplayDRM or vaInitialize failure the record is freed and NULL
returned.  Note the context/config handles of a fresh session are 0, not
VA_INVALID_ID. -/
def va_renderer_init (env : InitEnv) (gpu_fd gbm : Nat) : Option VaRenderer :=
  match env.getDisplayResult with
  | none => none
  | some d =>
    if env.vaInitStatus = VA_STATUS_SUCCESS then
      some { gpu_fd := gpu_fd, va_display := d, va_context := 0,
             va_config := 0, render_target_format := 0, gbm := gbm }
    else
      none

/-- Embedding of va_renderer_destroy_context (va_renderer.c:94-106):
destroy each handle iff it differs from VA_INVALID_ID, then store
VA_INVALID_ID in it. -/
def va_renderer_destroy_context (r : VaRenderer) : VaRenderer × List Call :=
  let s1 : VaRenderer × List Call :=
    if r.va_context ≠ VA_INVALID_ID then
      ({ r with va_context := VA_INVALID_ID }, [Call.destroyContext r.va_context])
    else
      (r, [])
  let s2 : VaRenderer × List Call :=
    if s1.1.va_config ≠ VA_INVALID_ID then
      ({ s1.1 with va_config := VA_INVALID_ID },
       s1.2 ++ [Call.destroyConfig s1.1.va_config])
    else
      (s1.1, s1.2)
  s2

/-- Embedding of va_renderer_create_context (va_renderer.c:132-156):
destroy any existing context/config, create a config keyed by the session's
render_target_format, then a context with dummy 1x1 dimensions.  On a
failing vaCreateConfig or vaCreateContext the corresponding output handle
is not written (it keeps the VA_INVALID_ID stored by the destroy). -/
def va_renderer_create_context (env : VaEnv) (r : VaRenderer) :
    Bool × VaRenderer × List Call :=
  let d := va_renderer_destroy_context r
  let calls1 := d.2 ++ [Call.createConfig d.1.render_target_format]
  match env.createConfigResult with
  | none => (false, d.1, calls1)
  | some cfg =>
    let r2 := { d.1 with va_config := cfg }
    let calls2 := calls1 ++ [Call.createContext cfg]
    match env.createContextResult with
    | none => (false, r2, calls2)
    | some ctx => (true, { r2 with va_context := ctx }, calls2)

/-- Embedding of va_get_bo_from_view (va_renderer.c:158-246) with
HAVE_GBM_FD_IMPORT defined.  The C function also receives the renderer,
used only for the gbm device handed to gbm_bo_import; import results
live in the environment, so that argument is dropped here.
Any set dmabuf attribute flag rejects the buffer before any import; the
legacy single-fd path is taken only when there is no modifier, one plane
and zero first offset. -/
def va_get_bo_from_view (env : VaEnv) (v : WestonView) :
    Option GbmBo :=
  match v.surface.buffer with
  | none => none
  | some _buffer =>
    match env.dmabufGet with
    | some dmabuf =>
      if dmabuf.flags ≠ 0 then
        none
      else if dmabuf.modifier0 ≠ DRM_FORMAT_MOD_INVALID ∨
              dmabuf.n_planes > 1 ∨ dmabuf.offset0 > 0 then
        env.importFdModifierResult
      else
        env.importFdResult
    | none => env.importWlBufferResult

/-- Embedding of va_get_surface_from_gbm_bo (va_renderer.c:276-329).
The C function also receives the renderer, used only for its va_display
handle, which the environment abstracts, so that argument is dropped.
Reads width/height/fd/plane count from the bo (gbm_bo_get_fd acquires a
file descriptor, recorded in the trace), builds the external-buffer
descriptor with the same fd replicated for every plane, and calls
vaCreateSurfaces with memory type DRM_PRIME.  On failure the function
still returns the local `surface` variable, which vaCreateSurfaces never
wrote: its indeterminate value comes from the environment. -/
def va_get_surface_from_gbm_bo (env : VaEnv) (bo : GbmBo) :
    Nat × List Call :=
  let width := bo.width
  let height := bo.height
  let fd := bo.fd
  let total_planes := bo.plane_count
  let rt_format := va_drm_format_to_rt_format DRM_FORMAT_P010
  let ext : ExtBufDesc :=
    { pixel_format := va_drm_format_to_va_format DRM_FORMAT_P010
      width := width
      height := height
      num_planes := total_planes
      pitches := (List.range total_planes).map bo.stride
      offsets := (List.range total_planes).map bo.offset
      num_buffers := total_planes
      buffers := (List.range total_planes).map (fun _ => fd) }
  let calls := [Call.gbmBoGetFd fd,
                Call.createSurfaces rt_format width height
                  (SurfAttribs.primeExt VA_SURFACE_ATTRIB_MEM_TYPE_DRM_PRIME ext)]
  match env.createSrcSurfaceResult with
  | some s => (s, calls)
  | none => (env.srcSurfaceIndeterminate, calls)

/-- The part of va_renderer_tonemap after the context-ensure step
(va_renderer.c:361-480), split out of the embedding of the whole function
for proof modularity: the filter-caps query, buffer import, surface
bridging, destination-surface creation, metadata translation and the two
begin/render/end passes, in the source's order.  The session state is not
mutated past the context step and its display/context handles are
abstracted by the environment, so only the result and trace are
produced and the session argument is dropped. -/
def va_tonemap_passes (env : VaEnv) (v : WestonView)
    (sm : WestonHdrMetadataStatic) : Bool × List Call :=
  let rt_format := va_drm_format_to_rt_format DRM_FORMAT_P010
  let va_format := va_drm_format_to_va_format DRM_FORMAT_P010
  let calls0 := [Call.queryFilterCaps VAProcFilterHighDynamicRangeToneMapping]
  match va_get_bo_from_view env v with
  | none => (false, calls0)
  | some bo =>
    let width := bo.width
    let height := bo.height
    let bridge := va_get_surface_from_gbm_bo env bo
    let src_surface := bridge.1
    let calls1 := calls0 ++ bridge.2
    let calls2 := calls1 ++ [Call.createSurfaces rt_format width height
                               (SurfAttribs.pixelFormat va_format)]
    match env.createDstSurfaceResult with
    | none => (false, calls2)
    | some dst_surface =>
      let surface_region : VARect :=
        { x := 0, y := 0, width := width, height := height }
      let va_sm : VAHdrMetaDataHDR10 :=
        { display_primaries_x :=
            [sm.display_primary_g_x, sm.display_primary_b_x, sm.display_primary_r_x]
          display_primaries_y :=
            [sm.display_primary_g_y, sm.display_primary_b_y, sm.display_primary_r_y]
          white_point_x := sm.white_point_x
          white_point_y := sm.white_point_y
          max_display_mastering_luminance := sm.max_luminance
          min_display_mastering_luminance := sm.min_luminance
          max_content_light_level := sm.max_cll
          max_pic_average_light_level := sm.max_fall }
      let tone_mapping_filter : FilterParamHDRTM :=
        { filter_type := VAProcFilterHighDynamicRangeToneMapping
          metadata_type := VAProcHighDynamicRangeMetadataHDR10
          metadata := va_sm }
      let pipe_param1 : PipelineParam :=
        { surface := src_surface
          surface_region := surface_region
          surface_color_standard := VAProcColorStandardBT2020
          output_region := surface_region
          output_color_standard := VAProcColorStandardBT2020
          filters := [env.filterBufId]
          num_filters := 1 }
      let ret1 := (env.begin1Status.lor env.render1Status).lor env.end1Status
      let pipe_param2 : PipelineParam :=
        { surface := dst_surface
          surface_region := surface_region
          surface_color_standard := VAProcColorStandardBT2020
          output_region := surface_region
          output_color_standard := VAProcColorStandardBT2020
          filters := []
          num_filters := 0 }
      let ret2 := (env.begin2Status.lor env.render2Status).lor env.end2Status
      let _unused_accumulated := (ret1, ret2)
      let calls3 := calls2 ++
        [Call.createBuffer VAProcFilterParameterBufferType env.filterBufId
           (BufContent.filterHDRTM tone_mapping_filter),
         Call.createBuffer VAProcPipelineParameterBufferType env.pipeBufId1
           (BufContent.pipeline pipe_param1),
         Call.beginPicture dst_surface,
         Call.renderPicture env.pipeBufId1,
         Call.endPicture,
         Call.destroyBuffer env.pipeBufId1,
         Call.destroyBuffer env.filterBufId,
         Call.createBuffer VAProcPipelineParameterBufferType env.pipeBufId2
           (BufContent.pipeline pipe_param2),
         Call.beginPicture src_surface,
         Call.renderPicture env.pipeBufId2,
         Call.endPicture,
         Call.destroyBuffer env.pipeBufId2]
      (true, calls3)

/-- Embedding of va_renderer_tonemap (va_renderer.c:331-481).  Missing HDR
metadata fails immediately; the context is (re)created when the current
context handle equals VA_INVALID_ID or the session's format differs from
the requested render-target format, and a failing creation aborts; the
rest of the operation is va_tonemap_passes. -/
def va_renderer_tonemap (env : VaEnv) (r : VaRenderer) (v : WestonView) :
    Bool × VaRenderer × List Call :=
  let rt_format := va_drm_format_to_rt_format DRM_FORMAT_P010
  match v.surface.hdr_metadata with
  | none => (false, r, [])
  | some sm =>
    let step : Bool × VaRenderer × List Call :=
      if r.va_context = VA_INVALID_ID ∨ r.render_target_format ≠ rt_format then
        va_renderer_create_context env
          { r with render_target_format := rt_format }
      else
        (true, r, [])
    match step with
    | (false, r1, calls1) => (false, r1, calls1)
    | (true, r1, calls1) =>
      let rest := va_tonemap_passes env v sm
      (rest.1, r1, calls1 ++ rest.2)

/-- Embedding of va_renderer_fini (va_renderer.c:483-487): destroy the
context/config pair, then vaTerminate the display connection. -/
def va_renderer_fini (r : VaRenderer) : VaRenderer × List Call :=
  let d := va_renderer_destroy_context r
  (d.1, d.2 ++ [Call.terminate])

/-! ### Trace observers -/

/-- Calls that create an accelerator surface. -/
def Call.isCreateSurfaces : Call → Bool
  | .createSurfaces _ _ _ _ => true
  | _ => false

/-- Calls that go to the accelerator (every libva round-trip); gbm/fd
operations are allocator-side, not accelerator calls. -/
def Call.isAccel : Call → Bool
  | .gbmBoGetFd _ => false
  | .gbmBoDestroy => false
  | .closeFd _ => false
  | _ => true

/-- Calls that release a GPU buffer object or a file descriptor obtained
from it. -/
def Call.isGbmRelease : Call → Bool
  | .gbmBoDestroy => true
  | .closeFd _ => true
  | _ => false

def Call.isDestroyContext : Call → Bool
  | .destroyContext _ => true
  | _ => false

def Call.isDestroyConfig : Call → Bool
  | .destroyConfig _ => true
  | _ => false

def Call.isCreateConfig : Call → Bool
  | .createConfig _ => true
  | _ => false

def Call.isCreateContext : Call → Bool
  | .createContext _ => true
  | _ => false

/-- Calls that manage the processing context/config pair. -/
def Call.isCtxManagement (c : Call) : Bool :=
  c.isDestroyContext || c.isDestroyConfig || c.isCreateConfig || c.isCreateContext

/-! ### Concrete fixtures for witnesses and counterexamples -/

/-- A plain single-plane dmabuf descriptor set: no flags, no modifier,
one plane, zero offset. -/
def dmabufPlain : DmabufAttributes :=
  { width := 16, height := 16, format := DRM_FORMAT_P010, n_planes := 1,
    flags := 0, fd0 := 5, stride0 := 64, offset0 := 0,
    modifier0 := DRM_FORMAT_MOD_INVALID }

/-- A concrete imported buffer object. -/
def boA : GbmBo :=
  { width := 16, height := 16, fd := 5, plane_count := 2,
    stride := fun _ => 64, offset := fun _ => 0 }

def smA : WestonHdrMetadataStatic :=
  { display_primary_r_x := 1, display_primary_r_y := 2,
    display_primary_g_x := 3, display_primary_g_y := 4,
    display_primary_b_x := 5, display_primary_b_y := 6,
    white_point_x := 7, white_point_y := 8,
    max_luminance := 1000, min_luminance := 1,
    max_cll := 900, max_fall := 400 }

/-- A view whose surface has an attached buffer and HDR static metadata. -/
def viewHDR : WestonView :=
  { surface := { buffer := some { resource := 1 }, hdr_metadata := some smA } }

/-- A fresh session exactly as va_renderer_initialize returns it: zalloc
zeroes every field, then va_display := 9 and gbm := 4 are assigned. -/
def rFresh : VaRenderer :=
  { gpu_fd := 3, va_display := 9, va_context := 0, va_config := 0,
    render_target_format := 0, gbm := 4 }

/-- An environment in which every external call succeeds. -/
def envOK : VaEnv :=
  { createConfigResult := some 7, createContextResult := some 8,
    queryCapsStatus := 0, dmabufGet := some dmabufPlain,
    importFdResult := some boA, importFdModifierResult := none,
    importWlBufferResult := none, createSrcSurfaceResult := some 21,
    srcSurfaceIndeterminate := 42, createDstSurfaceResult := some 22,
    filterBufId := 31, pipeBufId1 := 32, pipeBufId2 := 33,
    begin1Status := 0, render1Status := 0, end1Status := 0,
    begin2Status := 0, render2Status := 0, end2Status := 0 }

/-- envOK with every begin/render/end picture status a distinct non-success
code. -/
def envStatusFail : VaEnv :=
  { envOK with begin1Status := 2, render1Status := 4, end1Status := 8,
               begin2Status := 2, render2Status := 4, end2Status := 8 }

/-- envOK except vaCreateConfig fails. -/
def envCfgFail : VaEnv :=
  { envOK with createConfigResult := none }

/-- envOK except vaCreateContext fails. -/
def envCtxFail : VaEnv :=
  { envOK with createContextResult := none }

/-- envOK except the bridge's vaCreateSurfaces fails, leaving the local
surface variable with indeterminate content 42. -/
def envSrcFail : VaEnv :=
  { envOK with createSrcSurfaceResult := none }

/-- envOK except the dmabuf descriptor set carries a non-zero
orientation/ordering flag. -/
def envFlagged : VaEnv :=
  { envOK with dmabufGet := some { dmabufPlain with flags := 1 } }

/-! ### Helper lemmas on the context manager -/

lemma destroy_context_state (r : VaRenderer) :
    (va_renderer_destroy_context r).1 =
      { r with va_context := VA_INVALID_ID, va_config := VA_INVALID_ID } := by
  obtain ⟨fd, disp, ctx, cfg, fmt, g⟩ := r
  unfold va_renderer_destroy_context
  by_cases h1 : ctx = VA_INVALID_ID <;> by_cases h2 : cfg = VA_INVALID_ID <;>
    simp_all

lemma destroy_context_calls_both (r : VaRenderer)
    (h1 : r.va_context ≠ VA_INVALID_ID) (h2 : r.va_config ≠ VA_INVALID_ID) :
    (va_renderer_destroy_context r).2 =
      [Call.destroyContext r.va_context, Call.destroyConfig r.va_config] := by
  obtain ⟨fd, disp, ctx, cfg, fmt, g⟩ := r
  unfold va_renderer_destroy_context
  simp_all

lemma destroy_context_calls_shape (r : VaRenderer) :
    ∀ c ∈ (va_renderer_destroy_context r).2,
      c.isDestroyContext = true ∨ c.isDestroyConfig = true := by
  obtain ⟨fd, disp, ctx, cfg, fmt, g⟩ := r
  unfold va_renderer_destroy_context
  by_cases h1 : ctx = VA_INVALID_ID <;> by_cases h2 : cfg = VA_INVALID_ID <;>
    simp_all [Call.isDestroyContext, Call.isDestroyConfig]

lemma create_context_success (env : VaEnv) (r : VaRenderer) (cfg ctxid : Nat)
    (h1 : env.createConfigResult = some cfg)
    (h2 : env.createContextResult = some ctxid) :
    va_renderer_create_context env r =
      (true,
       { r with va_config := cfg, va_context := ctxid },
       (va_renderer_destroy_context r).2 ++
         [Call.createConfig r.render_target_format, Call.createContext cfg]) := by
  simp only [va_renderer_create_context, h1, h2, destroy_context_state]
  obtain ⟨fd, disp, ctx, cfg0, fmt, g⟩ := r
  simp

lemma create_context_cfg_fail (env : VaEnv) (r : VaRenderer)
    (h1 : env.createConfigResult = none) :
    va_renderer_create_context env r =
      (false,
       { r with va_config := VA_INVALID_ID, va_context := VA_INVALID_ID },
       (va_renderer_destroy_context r).2 ++
         [Call.createConfig r.render_target_format]) := by
  simp only [va_renderer_create_context, h1, destroy_context_state]

lemma create_context_ctx_fail (env : VaEnv) (r : VaRenderer) (cfg : Nat)
    (h1 : env.createConfigResult = some cfg)
    (h2 : env.createContextResult = none) :
    va_renderer_create_context env r =
      (false,
       { r with va_config := cfg, va_context := VA_INVALID_ID },
       (va_renderer_destroy_context r).2 ++
         [Call.createConfig r.render_target_format, Call.createContext cfg]) := by
  simp only [va_renderer_create_context, h1, h2, destroy_context_state]
  obtain ⟨fd, disp, ctx, cfg0, fmt, g⟩ := r
  simp

/-! ### Reduction lemmas for the tone-map driver -/

lemma tonemap_hdr_none (env : VaEnv) (r : VaRenderer) (v : WestonView)
    (h : v.surface.hdr_metadata = none) :
    va_renderer_tonemap env r v = (false, r, []) := by
  simp [va_renderer_tonemap, h]

lemma tonemap_reuse (env : VaEnv) (r : VaRenderer) (v : WestonView)
    (sm : WestonHdrMetadataStatic)
    (hhdr : v.surface.hdr_metadata = some sm)
    (h1 : r.va_context ≠ VA_INVALID_ID)
    (h2 : r.render_target_format = va_drm_format_to_rt_format DRM_FORMAT_P010) :
    va_renderer_tonemap env r v =
      ((va_tonemap_passes env v sm).1, r, (va_tonemap_passes env v sm).2) := by
  have hc : ¬(r.va_context = VA_INVALID_ID ∨
      r.render_target_format ≠ va_drm_format_to_rt_format DRM_FORMAT_P010) := by
    push_neg
    exact ⟨h1, h2⟩
  simp only [va_renderer_tonemap, hhdr, if_neg hc]
  simp

lemma tonemap_create_eq (env : VaEnv) (r : VaRenderer) (v : WestonView)
    (sm : WestonHdrMetadataStatic) (cfg ctxid : Nat)
    (hhdr : v.surface.hdr_metadata = some sm)
    (hc : r.va_context = VA_INVALID_ID ∨
      r.render_target_format ≠ va_drm_format_to_rt_format DRM_FORMAT_P010)
    (h1 : env.createConfigResult = some cfg)
    (h2 : env.createContextResult = some ctxid) :
    va_renderer_tonemap env r v =
      ((va_tonemap_passes env v sm).1,
       { r with render_target_format := va_drm_format_to_rt_format DRM_FORMAT_P010,
                va_config := cfg, va_context := ctxid },
       ((va_renderer_destroy_context
           { r with render_target_format :=
               va_drm_format_to_rt_format DRM_FORMAT_P010 }).2 ++
        [Call.createConfig (va_drm_format_to_rt_format DRM_FORMAT_P010),
         Call.createContext cfg]) ++ (va_tonemap_passes env v sm).2) := by
  simp only [va_renderer_tonemap, hhdr, if_pos hc,
    create_context_success env _ cfg ctxid h1 h2]

lemma tonemap_cfg_fail_eq (env : VaEnv) (r : VaRenderer) (v : WestonView)
    (sm : WestonHdrMetadataStatic)
    (hhdr : v.surface.hdr_metadata = some sm)
    (hc : r.va_context = VA_INVALID_ID ∨
      r.render_target_format ≠ va_drm_format_to_rt_format DRM_FORMAT_P010)
    (h1 : env.createConfigResult = none) :
    va_renderer_tonemap env r v =
      (false,
       { r with render_target_format := va_drm_format_to_rt_format DRM_FORMAT_P010,
                va_config := VA_INVALID_ID, va_context := VA_INVALID_ID },
       (va_renderer_destroy_context
           { r with render_target_format :=
               va_drm_format_to_rt_format DRM_FORMAT_P010 }).2 ++
        [Call.createConfig (va_drm_format_to_rt_format DRM_FORMAT_P010)]) := by
  simp only [va_renderer_tonemap, hhdr, if_pos hc,
    create_context_cfg_fail env _ h1]

lemma tonemap_ctx_fail_eq (env : VaEnv) (r : VaRenderer) (v : WestonView)
    (sm : WestonHdrMetadataStatic) (cfg : Nat)
    (hhdr : v.surface.hdr_metadata = some sm)
    (hc : r.va_context = VA_INVALID_ID ∨
      r.render_target_format ≠ va_drm_format_to_rt_format DRM_FORMAT_P010)
    (h1 : env.createConfigResult = some cfg)
    (h2 : env.createContextResult = none) :
    va_renderer_tonemap env r v =
      (false,
       { r with render_target_format := va_drm_format_to_rt_format DRM_FORMAT_P010,
                va_config := cfg, va_context := VA_INVALID_ID },
       (va_renderer_destroy_context
           { r with render_target_format :=
               va_drm_format_to_rt_format DRM_FORMAT_P010 }).2 ++
        [Call.createConfig (va_drm_format_to_rt_format DRM_FORMAT_P010),
         Call.createContext cfg]) := by
  simp only [va_renderer_tonemap, hhdr, if_pos hc,
    create_context_ctx_fail env _ cfg h1 h2]

/-! ### Reduction lemmas for the bridge and the passes -/

lemma bridge_calls (env : VaEnv) (bo : GbmBo) :
    (va_get_surface_from_gbm_bo env bo).2 =
      [Call.gbmBoGetFd bo.fd,
       Call.createSurfaces (va_drm_format_to_rt_format DRM_FORMAT_P010)
         bo.width bo.height
         (SurfAttribs.primeExt VA_SURFACE_ATTRIB_MEM_TYPE_DRM_PRIME
           { pixel_format := va_drm_format_to_va_format DRM_FORMAT_P010
             width := bo.width
             height := bo.height
             num_planes := bo.plane_count
             pitches := (List.range bo.plane_count).map bo.stride
             offsets := (List.range bo.plane_count).map bo.offset
             num_buffers := bo.plane_count
             buffers := (List.range bo.plane_count).map (fun _ => bo.fd) })] := by
  rcases h : env.createSrcSurfaceResult with _ | s <;>
    simp [va_get_surface_from_gbm_bo, h]

lemma bridge_value_some (env : VaEnv) (bo : GbmBo) (s : Nat)
    (h : env.createSrcSurfaceResult = some s) :
    (va_get_surface_from_gbm_bo env bo).1 = s := by
  simp [va_get_surface_from_gbm_bo, h]

lemma bridge_value_none (env : VaEnv) (bo : GbmBo)
    (h : env.createSrcSurfaceResult = none) :
    (va_get_surface_from_gbm_bo env bo).1 = env.srcSurfaceIndeterminate := by
  simp [va_get_surface_from_gbm_bo, h]

lemma passes_bo_none (env : VaEnv) (v : WestonView) (sm : WestonHdrMetadataStatic)
    (h : va_get_bo_from_view env v = none) :
    va_tonemap_passes env v sm =
      (false, [Call.queryFilterCaps VAProcFilterHighDynamicRangeToneMapping]) := by
  simp [va_tonemap_passes, h]

lemma passes_dst_none (env : VaEnv) (v : WestonView) (sm : WestonHdrMetadataStatic)
    (bo : GbmBo)
    (hbo : va_get_bo_from_view env v = some bo)
    (hdst : env.createDstSurfaceResult = none) :
    va_tonemap_passes env v sm =
      (false,
       Call.queryFilterCaps VAProcFilterHighDynamicRangeToneMapping ::
         ((va_get_surface_from_gbm_bo env bo).2 ++
          [Call.createSurfaces (va_drm_format_to_rt_format DRM_FORMAT_P010)
             bo.width bo.height
             (SurfAttribs.pixelFormat (va_drm_format_to_va_format DRM_FORMAT_P010))])) := by
  simp [va_tonemap_passes, hbo, hdst]

lemma passes_success_eq (env : VaEnv) (v : WestonView)
    (sm : WestonHdrMetadataStatic) (bo : GbmBo) (dst : Nat)
    (hbo : va_get_bo_from_view env v = some bo)
    (hdst : env.createDstSurfaceResult = some dst) :
    va_tonemap_passes env v sm =
      (true,
       Call.queryFilterCaps VAProcFilterHighDynamicRangeToneMapping ::
         ((va_get_surface_from_gbm_bo env bo).2 ++
          [Call.createSurfaces (va_drm_format_to_rt_format DRM_FORMAT_P010)
             bo.width bo.height
             (SurfAttribs.pixelFormat (va_drm_format_to_va_format DRM_FORMAT_P010)),
           Call.createBuffer VAProcFilterParameterBufferType env.filterBufId
             (BufContent.filterHDRTM
               { filter_type := VAProcFilterHighDynamicRangeToneMapping
                 metadata_type := VAProcHighDynamicRangeMetadataHDR10
                 metadata :=
                   { display_primaries_x :=
                       [sm.display_primary_g_x, sm.display_primary_b_x,
                        sm.display_primary_r_x]
                     display_primaries_y :=
                       [sm.display_primary_g_y, sm.display_primary_b_y,
                        sm.display_primary_r_y]
                     white_point_x := sm.white_point_x
                     white_point_y := sm.white_point_y
                     max_display_mastering_luminance := sm.max_luminance
                     min_display_mastering_luminance := sm.min_luminance
                     max_content_light_level := sm.max_cll
                     max_pic_average_light_level := sm.max_fall } }),
           Call.createBuffer VAProcPipelineParameterBufferType env.pipeBufId1
             (BufContent.pipeline
               { surface := (va_get_surface_from_gbm_bo env bo).1
                 surface_region := { x := 0, y := 0, width := bo.width, height := bo.height }
                 surface_color_standard := VAProcColorStandardBT2020
                 output_region := { x := 0, y := 0, width := bo.width, height := bo.height }
                 output_color_standard := VAProcColorStandardBT2020
                 filters := [env.filterBufId]
                 num_filters := 1 }),
           Call.beginPicture dst,
           Call.renderPicture env.pipeBufId1,
           Call.endPicture,
           Call.destroyBuffer env.pipeBufId1,
           Call.destroyBuffer env.filterBufId,
           Call.createBuffer VAProcPipelineParameterBufferType env.pipeBufId2
             (BufContent.pipeline
               { surface := dst
                 surface_region := { x := 0, y := 0, width := bo.width, height := bo.height }
                 surface_color_standard := VAProcColorStandardBT2020
                 output_region := { x := 0, y := 0, width := bo.width, height := bo.height }
                 output_color_standard := VAProcColorStandardBT2020
                 filters := []
                 num_filters := 0 }),
           Call.beginPicture (va_get_surface_from_gbm_bo env bo).1,
           Call.renderPicture env.pipeBufId2,
           Call.endPicture,
           Call.destroyBuffer env.pipeBufId2])) := by
  simp [va_tonemap_passes, hbo, hdst]

/-! ### Trace-shape helper lemmas -/

lemma passes_ctx_counts_zero (env : VaEnv) (v : WestonView)
    (sm : WestonHdrMetadataStatic) :
    (va_tonemap_passes env v sm).2.countP Call.isCtxManagement = 0 ∧
    (va_tonemap_passes env v sm).2.countP Call.isDestroyContext = 0 ∧
    (va_tonemap_passes env v sm).2.countP Call.isDestroyConfig = 0 ∧
    (va_tonemap_passes env v sm).2.countP Call.isCreateConfig = 0 ∧
    (va_tonemap_passes env v sm).2.countP Call.isCreateContext = 0 := by
  rcases hbo : va_get_bo_from_view env v with _ | bo
  · rw [passes_bo_none env v sm hbo]
    exact ⟨rfl, rfl, rfl, rfl, rfl⟩
  · rcases hdst : env.createDstSurfaceResult with _ | dst
    · rw [passes_dst_none env v sm bo hbo hdst, bridge_calls]
      exact ⟨rfl, rfl, rfl, rfl, rfl⟩
    · rw [passes_success_eq env v sm bo dst hbo hdst, bridge_calls]
      exact ⟨rfl, rfl, rfl, rfl, rfl⟩

lemma tonemap_true_post (env : VaEnv) (r : VaRenderer) (v : WestonView)
    (hid : ∀ id, env.createContextResult = some id → id ≠ VA_INVALID_ID)
    (h : (va_renderer_tonemap env r v).1 = true) :
    (va_renderer_tonemap env r v).2.1.va_context ≠ VA_INVALID_ID ∧
    (va_renderer_tonemap env r v).2.1.render_target_format =
      va_drm_format_to_rt_format DRM_FORMAT_P010 := by
  rcases hhdr : v.surface.hdr_metadata with _ | sm
  · rw [tonemap_hdr_none env r v hhdr] at h
    simp at h
  · by_cases hc : r.va_context = VA_INVALID_ID ∨
        r.render_target_format ≠ va_drm_format_to_rt_format DRM_FORMAT_P010
    · rcases hcfg : env.createConfigResult with _ | cfg
      · rw [tonemap_cfg_fail_eq env r v sm hhdr hc hcfg] at h
        simp at h
      · rcases hctx : env.createContextResult with _ | ctxid
        · rw [tonemap_ctx_fail_eq env r v sm cfg hhdr hc hcfg hctx] at h
          simp at h
        · rw [tonemap_create_eq env r v sm cfg ctxid hhdr hc hcfg hctx]
          exact ⟨by simpa using hid ctxid hctx, by simp⟩
    · push_neg at hc
      rw [tonemap_reuse env r v sm hhdr hc.1 hc.2]
      exact ⟨hc.1, hc.2⟩

lemma tonemap_no_ctx_trace (env : VaEnv) (r : VaRenderer) (v : WestonView)
    (hctxvalid : r.va_context ≠ VA_INVALID_ID)
    (hfmt : r.render_target_format = va_drm_format_to_rt_format DRM_FORMAT_P010) :
    (va_renderer_tonemap env r v).2.2.countP Call.isCtxManagement = 0 := by
  rcases hhdr : v.surface.hdr_metadata with _ | sm
  · rw [tonemap_hdr_none env r v hhdr]
    simp
  · rw [tonemap_reuse env r v sm hhdr hctxvalid hfmt]
    exact (passes_ctx_counts_zero env v sm).1

/-! ### Claims on the format translators -/

/-- Claim C7: both format translators are pure total functions; the listed
formats NV12, YV12 (= DRM YVU420), I420 (= DRM YUV420), UYVY, YUYV, YVYU,
VYUY and the 10-bit planar P010 all map to the YUV420 render-target family,
the remaining supported formats map to their documented families and
accelerator fourccs, and every format outside each translator's supported
set is mapped to the zero/invalid sentinel (no error is raised: the
functions are total). -/
theorem C7_format_translators :
    (va_drm_format_to_rt_format DRM_FORMAT_NV12 = VA_RT_FORMAT_YUV420 ∧
     va_drm_format_to_rt_format DRM_FORMAT_YVU420 = VA_RT_FORMAT_YUV420 ∧
     va_drm_format_to_rt_format DRM_FORMAT_YUV420 = VA_RT_FORMAT_YUV420 ∧
     va_drm_format_to_rt_format DRM_FORMAT_UYVY = VA_RT_FORMAT_YUV420 ∧
     va_drm_format_to_rt_format DRM_FORMAT_YUYV = VA_RT_FORMAT_YUV420 ∧
     va_drm_format_to_rt_format DRM_FORMAT_YVYU = VA_RT_FORMAT_YUV420 ∧
     va_drm_format_to_rt_format DRM_FORMAT_VYUY = VA_RT_FORMAT_YUV420 ∧
     va_drm_format_to_rt_format DRM_FORMAT_P010 = VA_RT_FORMAT_YUV420 ∧
     va_drm_format_to_rt_format DRM_FORMAT_YUV422 = VA_RT_FORMAT_YUV422 ∧
     va_drm_format_to_rt_format DRM_FORMAT_YUV444 = VA_RT_FORMAT_YUV444) ∧
    (va_drm_format_to_va_format DRM_FORMAT_NV12 = VA_FOURCC_NV12 ∧
     va_drm_format_to_va_format DRM_FORMAT_YVU420 = VA_FOURCC_YV12 ∧
     va_drm_format_to_va_format DRM_FORMAT_YUV420 = VA_FOURCC_I420 ∧
     va_drm_format_to_va_format DRM_FORMAT_YUV422 = VA_FOURCC_YUY2 ∧
     va_drm_format_to_va_format DRM_FORMAT_UYVY = VA_FOURCC_UYVY ∧
     va_drm_format_to_va_format DRM_FORMAT_YUYV = VA_FOURCC_YUY2 ∧
     va_drm_format_to_va_format DRM_FORMAT_P010 = VA_FOURCC_P010) ∧
    (∀ format : Nat, format ∉ rt_supported_formats →
      va_drm_format_to_rt_format format = 0) ∧
    (∀ format : Nat, format ∉ va_supported_formats →
      va_drm_format_to_va_format format = 0) := by
  refine ⟨by decide, by decide, ?_, ?_⟩
  · intro format hf
    simp only [rt_supported_formats, List.mem_cons, List.not_mem_nil, or_false,
      not_or] at hf
    obtain ⟨h1, h2, h3, h4, h5, h6, h7, h8, h9, h10⟩ := hf
    simp [va_drm_format_to_rt_format, h1, h2, h3, h4, h5, h6, h7, h8, h9, h10]
  · intro format hf
    simp only [va_supported_formats, List.mem_cons, List.not_mem_nil, or_false,
      not_or] at hf
    obtain ⟨h1, h2, h3, h4, h5, h6, h7⟩ := hf
    simp [va_drm_format_to_va_format, h1, h2, h3, h4, h5, h6, h7]

/-- Witness for C7: the sentinel clauses applied at the concrete
unsupported format DRM_FORMAT_ARGB8888 = fourcc AR24. -/
theorem C7_format_translators_witness :
    (fourcc_code 0x41 0x52 0x32 0x34 ∉ rt_supported_formats ∧
     va_drm_format_to_rt_format (fourcc_code 0x41 0x52 0x32 0x34) = 0) ∧
    (fourcc_code 0x41 0x52 0x32 0x34 ∉ va_supported_formats ∧
     va_drm_format_to_va_format (fourcc_code 0x41 0x52 0x32 0x34) = 0) :=
  ⟨⟨by decide, C7_format_translators.2.2.1 (fourcc_code 0x41 0x52 0x32 0x34)
      (by decide)⟩,
   ⟨by decide, C7_format_translators.2.2.2 (fourcc_code 0x41 0x52 0x32 0x34)
      (by decide)⟩⟩

/-- Claim C10: the two translators' supported sets differ.  For YVYU, VYUY
and YUV444, va_drm_format_to_rt_format returns a valid non-zero
render-target family while va_drm_format_to_va_format returns the zero
sentinel, so checking only the render-target result lets the zero pixel code
through. -/
theorem C10_translator_sets_differ :
    (va_drm_format_to_rt_format DRM_FORMAT_YVYU = VA_RT_FORMAT_YUV420 ∧
     va_drm_format_to_rt_format DRM_FORMAT_YVYU ≠ 0 ∧
     va_drm_format_to_va_format DRM_FORMAT_YVYU = 0) ∧
    (va_drm_format_to_rt_format DRM_FORMAT_VYUY = VA_RT_FORMAT_YUV420 ∧
     va_drm_format_to_rt_format DRM_FORMAT_VYUY ≠ 0 ∧
     va_drm_format_to_va_format DRM_FORMAT_VYUY = 0) ∧
    (va_drm_format_to_rt_format DRM_FORMAT_YUV444 = VA_RT_FORMAT_YUV444 ∧
     va_drm_format_to_rt_format DRM_FORMAT_YUV444 ≠ 0 ∧
     va_drm_format_to_va_format DRM_FORMAT_YUV444 = 0) := by
  decide

/-- Claim C4: in pass 1 the three accelerator statuses are OR-accumulated
into a local the code never checks, and tone_map does not abort on a
non-success accumulated status: every execution that reaches pass 1
(destination surface created successfully) returns success, whatever the
six pass-1/pass-2 status codes in the environment are. -/
theorem C4_pass_status_not_checked (env : VaEnv) (r : VaRenderer)
    (v : WestonView) (sm : WestonHdrMetadataStatic) (bo : GbmBo)
    (hhdr : v.surface.hdr_metadata = some sm)
    (hctx : (r.va_context = VA_INVALID_ID ∨
        r.render_target_format ≠ va_drm_format_to_rt_format DRM_FORMAT_P010) →
      env.createConfigResult.isSome ∧ env.createContextResult.isSome)
    (hbo : va_get_bo_from_view env v = some bo)
    (hdst : env.createDstSurfaceResult.isSome) :
    (va_renderer_tonemap env r v).1 = true := by
  obtain ⟨dst, hdst2⟩ := Option.isSome_iff_exists.mp hdst
  by_cases hc : r.va_context = VA_INVALID_ID ∨
      r.render_target_format ≠ va_drm_format_to_rt_format DRM_FORMAT_P010
  · obtain ⟨hcfg, hctxr⟩ := hctx hc
    obtain ⟨cfg, hcfg2⟩ := Option.isSome_iff_exists.mp hcfg
    obtain ⟨ctxid, hctx2⟩ := Option.isSome_iff_exists.mp hctxr
    rw [tonemap_create_eq env r v sm cfg ctxid hhdr hc hcfg2 hctx2,
        passes_success_eq env v sm bo dst hbo hdst2]
  · push_neg at hc
    rw [tonemap_reuse env r v sm hhdr hc.1 hc.2,
        passes_success_eq env v sm bo dst hbo hdst2]

/-- Witness for C4: a concrete run in which every begin/render/end status
is a distinct non-success code and tone_map still returns success. -/
theorem C4_pass_status_not_checked_witness :
    viewHDR.surface.hdr_metadata = some smA ∧
    va_get_bo_from_view envStatusFail viewHDR = some boA ∧
    envStatusFail.createDstSurfaceResult.isSome = true ∧
    (va_renderer_tonemap envStatusFail rFresh viewHDR).1 = true :=
  ⟨rfl, rfl, rfl,
   C4_pass_status_not_checked envStatusFail rFresh viewHDR smA boA rfl
     (fun _ => ⟨rfl, rfl⟩) rfl rfl⟩

/-- Claim C9: every execution that issues both passes does so with the
documented structure: pass 1 begins on the freshly created destination
surface dst and its pipeline buffer carries exactly one filter, the
HDR-to-SDR tone-mapping filter buffer built from the view's translated
HDR10 metadata; pass 2 begins on the bridge's source surface src and its
pipeline buffer carries no filters; both pipeline buffers use the same
full-extent region and BT.2020 color standards on input and output. -/
theorem C9_two_pass_pipeline (env : VaEnv) (r : VaRenderer) (v : WestonView)
    (sm : WestonHdrMetadataStatic) (bo : GbmBo) (dst : Nat)
    (hhdr : v.surface.hdr_metadata = some sm)
    (hctx : (r.va_context = VA_INVALID_ID ∨
        r.render_target_format ≠ va_drm_format_to_rt_format DRM_FORMAT_P010) →
      env.createConfigResult.isSome ∧ env.createContextResult.isSome)
    (hbo : va_get_bo_from_view env v = some bo)
    (hdst : env.createDstSurfaceResult = some dst) :
    ∃ (pre : List Call) (src : Nat),
      (env.createSrcSurfaceResult = some src ∨
       (env.createSrcSurfaceResult = none ∧ src = env.srcSurfaceIndeterminate)) ∧
      (va_renderer_tonemap env r v).2.2 = pre ++
        [Call.createBuffer VAProcFilterParameterBufferType env.filterBufId
           (BufContent.filterHDRTM
             { filter_type := VAProcFilterHighDynamicRangeToneMapping
               metadata_type := VAProcHighDynamicRangeMetadataHDR10
               metadata :=
                 { display_primaries_x :=
                     [sm.display_primary_g_x, sm.display_primary_b_x,
                      sm.display_primary_r_x]
                   display_primaries_y :=
                     [sm.display_primary_g_y, sm.display_primary_b_y,
                      sm.display_primary_r_y]
                   white_point_x := sm.white_point_x
                   white_point_y := sm.white_point_y
                   max_display_mastering_luminance := sm.max_luminance
                   min_display_mastering_luminance := sm.min_luminance
                   max_content_light_level := sm.max_cll
                   max_pic_average_light_level := sm.max_fall } }),
         Call.createBuffer VAProcPipelineParameterBufferType env.pipeBufId1
           (BufContent.pipeline
             { surface := src
               surface_region := { x := 0, y := 0, width := bo.width, height := bo.height }
               surface_color_standard := VAProcColorStandardBT2020
               output_region := { x := 0, y := 0, width := bo.width, height := bo.height }
               output_color_standard := VAProcColorStandardBT2020
               filters := [env.filterBufId]
               num_filters := 1 }),
         Call.beginPicture dst,
         Call.renderPicture env.pipeBufId1,
         Call.endPicture,
         Call.destroyBuffer env.pipeBufId1,
         Call.destroyBuffer env.filterBufId,
         Call.createBuffer VAProcPipelineParameterBufferType env.pipeBufId2
           (BufContent.pipeline
             { surface := dst
               surface_region := { x := 0, y := 0, width := bo.width, height := bo.height }
               surface_color_standard := VAProcColorStandardBT2020
               output_region := { x := 0, y := 0, width := bo.width, height := bo.height }
               output_color_standard := VAProcColorStandardBT2020
               filters := []
               num_filters := 0 }),
         Call.beginPicture src,
         Call.renderPicture env.pipeBufId2,
         Call.endPicture,
         Call.destroyBuffer env.pipeBufId2] := by
  have hsrc : env.createSrcSurfaceResult = some (va_get_surface_from_gbm_bo env bo).1 ∨
      (env.createSrcSurfaceResult = none ∧
       (va_get_surface_from_gbm_bo env bo).1 = env.srcSurfaceIndeterminate) := by
    rcases h : env.createSrcSurfaceResult with _ | s
    · exact Or.inr ⟨rfl, bridge_value_none env bo h⟩
    · exact Or.inl (by rw [bridge_value_some env bo s h])
  by_cases hc : r.va_context = VA_INVALID_ID ∨
      r.render_target_format ≠ va_drm_format_to_rt_format DRM_FORMAT_P010
  · obtain ⟨hcfg, hctxr⟩ := hctx hc
    obtain ⟨cfg, hcfg2⟩ := Option.isSome_iff_exists.mp hcfg
    obtain ⟨ctxid, hctx2⟩ := Option.isSome_iff_exists.mp hctxr
    refine ⟨(va_renderer_destroy_context
        { r with render_target_format :=
            va_drm_format_to_rt_format DRM_FORMAT_P010 }).2 ++
      [Call.createConfig (va_drm_format_to_rt_format DRM_FORMAT_P010),
       Call.createContext cfg,
       Call.queryFilterCaps VAProcFilterHighDynamicRangeToneMapping] ++
      (va_get_surface_from_gbm_bo env bo).2 ++
      [Call.createSurfaces (va_drm_format_to_rt_format DRM_FORMAT_P010)
         bo.width bo.height
         (SurfAttribs.pixelFormat (va_drm_format_to_va_format DRM_FORMAT_P010))],
      (va_get_surface_from_gbm_bo env bo).1, hsrc, ?_⟩
    rw [tonemap_create_eq env r v sm cfg ctxid hhdr hc hcfg2 hctx2,
        passes_success_eq env v sm bo dst hbo hdst]
    simp [List.append_assoc]
  · push_neg at hc
    refine ⟨Call.queryFilterCaps VAProcFilterHighDynamicRangeToneMapping ::
      (va_get_surface_from_gbm_bo env bo).2 ++
      [Call.createSurfaces (va_drm_format_to_rt_format DRM_FORMAT_P010)
         bo.width bo.height
         (SurfAttribs.pixelFormat (va_drm_format_to_va_format DRM_FORMAT_P010))],
      (va_get_surface_from_gbm_bo env bo).1, hsrc, ?_⟩
    rw [tonemap_reuse env r v sm hhdr hc.1 hc.2,
        passes_success_eq env v sm bo dst hbo hdst]
    simp [List.append_assoc]

/-- Witness for C9: the two-pass structure at a concrete all-success run. -/
theorem C9_two_pass_pipeline_witness :
    viewHDR.surface.hdr_metadata = some smA ∧
    va_get_bo_from_view envOK viewHDR = some boA ∧
    envOK.createDstSurfaceResult = some 22 ∧
    (∃ (pre : List Call) (src : Nat),
      (envOK.createSrcSurfaceResult = some src ∨
       (envOK.createSrcSurfaceResult = none ∧ src = envOK.srcSurfaceIndeterminate)) ∧
      (va_renderer_tonemap envOK rFresh viewHDR).2.2 = pre ++
        [Call.createBuffer VAProcFilterParameterBufferType envOK.filterBufId
           (BufContent.filterHDRTM
             { filter_type := VAProcFilterHighDynamicRangeToneMapping
               metadata_type := VAProcHighDynamicRangeMetadataHDR10
               metadata :=
                 { display_primaries_x :=
                     [smA.display_primary_g_x, smA.display_primary_b_x,
                      smA.display_primary_r_x]
                   display_primaries_y :=
                     [smA.display_primary_g_y, smA.display_primary_b_y,
                      smA.display_primary_r_y]
                   white_point_x := smA.white_point_x
                   white_point_y := smA.white_point_y
                   max_display_mastering_luminance := smA.max_luminance
                   min_display_mastering_luminance := smA.min_luminance
                   max_content_light_level := smA.max_cll
                   max_pic_average_light_level := smA.max_fall } }),
         Call.createBuffer VAProcPipelineParameterBufferType envOK.pipeBufId1
           (BufContent.pipeline
             { surface := src
               surface_region := { x := 0, y := 0, width := boA.width, height := boA.height }
               surface_color_standard := VAProcColorStandardBT2020
               output_region := { x := 0, y := 0, width := boA.width, height := boA.height }
               output_color_standard := VAProcColorStandardBT2020
               filters := [envOK.filterBufId]
               num_filters := 1 }),
         Call.beginPicture 22,
         Call.renderPicture envOK.pipeBufId1,
         Call.endPicture,
         Call.destroyBuffer envOK.pipeBufId1,
         Call.destroyBuffer envOK.filterBufId,
         Call.createBuffer VAProcPipelineParameterBufferType envOK.pipeBufId2
           (BufContent.pipeline
             { surface := 22
               surface_region := { x := 0, y := 0, width := boA.width, height := boA.height }
               surface_color_standard := VAProcColorStandardBT2020
               output_region := { x := 0, y := 0, width := boA.width, height := boA.height }
               output_color_standard := VAProcColorStandardBT2020
               filters := []
               num_filters := 0 }),
         Call.beginPicture src,
         Call.renderPicture envOK.pipeBufId2,
         Call.endPicture,
         Call.destroyBuffer envOK.pipeBufId2]) :=
  ⟨rfl, rfl, rfl,
   C9_two_pass_pipeline envOK rFresh viewHDR smA boA 22 rfl
     (fun _ => ⟨rfl, rfl⟩) rfl rfl⟩

/-- Claim C8: (a) after a successful tone_map call, a second call on the
resulting session (which necessarily requests the same fixed render-target
format) performs no context/config destroy or create; (b) a call on a
session whose render-target format differs from the requested one (handles
present) destroys and recreates the context/config pair exactly once. -/
theorem C8_context_reuse_and_recreate :
    (∀ (env1 env2 : VaEnv) (r : VaRenderer) (v1 v2 : WestonView),
      (∀ id, env1.createContextResult = some id → id ≠ VA_INVALID_ID) →
      (va_renderer_tonemap env1 r v1).1 = true →
      ((va_renderer_tonemap env2 (va_renderer_tonemap env1 r v1).2.1 v2).2.2.countP
        Call.isCtxManagement) = 0) ∧
    (∀ (env : VaEnv) (r : VaRenderer) (v : WestonView)
        (sm : WestonHdrMetadataStatic) (cfg ctxid : Nat),
      v.surface.hdr_metadata = some sm →
      r.render_target_format ≠ va_drm_format_to_rt_format DRM_FORMAT_P010 →
      r.va_context ≠ VA_INVALID_ID →
      r.va_config ≠ VA_INVALID_ID →
      env.createConfigResult = some cfg →
      env.createContextResult = some ctxid →
      (va_renderer_tonemap env r v).2.2.countP Call.isDestroyContext = 1 ∧
      (va_renderer_tonemap env r v).2.2.countP Call.isDestroyConfig = 1 ∧
      (va_renderer_tonemap env r v).2.2.countP Call.isCreateConfig = 1 ∧
      (va_renderer_tonemap env r v).2.2.countP Call.isCreateContext = 1) := by
  constructor
  · intro env1 env2 r v1 v2 hid h1
    obtain ⟨hctx, hfmt⟩ := tonemap_true_post env1 r v1 hid h1
    exact tonemap_no_ctx_trace env2 _ v2 hctx hfmt
  · intro env r v sm cfg ctxid hhdr hfmt hctxv hcfgv h1 h2
    rw [tonemap_create_eq env r v sm cfg ctxid hhdr (Or.inr hfmt) h1 h2,
        destroy_context_calls_both _ (by simpa using hctxv) (by simpa using hcfgv)]
    have hz := passes_ctx_counts_zero env v sm
    simp [List.countP_append, List.countP_cons, Call.isDestroyContext,
      Call.isDestroyConfig, Call.isCreateConfig, Call.isCreateContext,
      hz.2.1, hz.2.2.1, hz.2.2.2.1, hz.2.2.2.2]

/-- Witness for C8: a successful first call on a fresh session followed by
a second call that performs no context management, and the recreate-once
counts for a first call on a session with present handles and a different
format. -/
theorem C8_context_reuse_and_recreate_witness :
    (va_renderer_tonemap envOK rFresh viewHDR).1 = true ∧
    (va_renderer_tonemap envOK
       (va_renderer_tonemap envOK rFresh viewHDR).2.1 viewHDR).2.2.countP
         Call.isCtxManagement = 0 ∧
    ((va_renderer_tonemap envOK rFresh viewHDR).2.2.countP
        Call.isDestroyContext = 1 ∧
     (va_renderer_tonemap envOK rFresh viewHDR).2.2.countP
        Call.isDestroyConfig = 1 ∧
     (va_renderer_tonemap envOK rFresh viewHDR).2.2.countP
        Call.isCreateConfig = 1 ∧
     (va_renderer_tonemap envOK rFresh viewHDR).2.2.countP
        Call.isCreateContext = 1) :=
  ⟨rfl,
   C8_context_reuse_and_recreate.1 envOK envOK rFresh viewHDR viewHDR
     (fun id h => by
       have h8 : id = 8 := by simpa [envOK] using h.symm
       subst h8
       decide) rfl,
   C8_context_reuse_and_recreate.2 envOK rFresh viewHDR smA 7 8 rfl
     (by decide) (by decide) (by decide) rfl rfl⟩

/-- Counterexample to claim C1 as stated: starting from the session
va_renderer_initialize returns, run tone_map in an environment where config
creation succeeds (id 7) but context creation fails.  tone_map fails, yet
the session is left with the valid config handle 7 and an invalid context
handle: half-initialized, not Uninitialized with both handles invalid. -/
theorem C1_counterexample :
    va_renderer_init { getDisplayResult := some 9, vaInitStatus := 0 } 3 4 =
      some rFresh ∧
    (va_renderer_tonemap envCtxFail rFresh viewHDR).1 = false ∧
    (va_renderer_tonemap envCtxFail rFresh viewHDR).2.1.va_context =
      VA_INVALID_ID ∧
    (va_renderer_tonemap envCtxFail rFresh viewHDR).2.1.va_config = 7 ∧
    (7 : Nat) ≠ VA_INVALID_ID :=
  ⟨rfl, rfl, rfl, rfl, by decide⟩

/-- Claim C1 (amended): when the context-creation transition fails at the
config-creation step the session is left with both handles invalid and the
calling tone_map fails; when it fails at the context-creation step the
config handle keeps the freshly created config while the context handle is
invalid (a half-initialized state), and the calling tone_map still fails. -/
theorem C1_context_failure_states (env : VaEnv) (r : VaRenderer)
    (v : WestonView) (sm : WestonHdrMetadataStatic)
    (hhdr : v.surface.hdr_metadata = some sm)
    (hc : r.va_context = VA_INVALID_ID ∨
      r.render_target_format ≠ va_drm_format_to_rt_format DRM_FORMAT_P010) :
    (env.createConfigResult = none →
      (va_renderer_tonemap env r v).1 = false ∧
      (va_renderer_tonemap env r v).2.1.va_context = VA_INVALID_ID ∧
      (va_renderer_tonemap env r v).2.1.va_config = VA_INVALID_ID) ∧
    (∀ cfg, env.createConfigResult = some cfg →
      env.createContextResult = none →
      (va_renderer_tonemap env r v).1 = false ∧
      (va_renderer_tonemap env r v).2.1.va_context = VA_INVALID_ID ∧
      (va_renderer_tonemap env r v).2.1.va_config = cfg) := by
  constructor
  · intro h1
    rw [tonemap_cfg_fail_eq env r v sm hhdr hc h1]
    exact ⟨rfl, rfl, rfl⟩
  · intro cfg h1 h2
    rw [tonemap_ctx_fail_eq env r v sm cfg hhdr hc h1 h2]
    exact ⟨rfl, rfl, rfl⟩

/-- Witness for the amended C1: both failure modes evaluated on concrete
environments. -/
theorem C1_context_failure_states_witness :
    ((va_renderer_tonemap envCfgFail rFresh viewHDR).1 = false ∧
     (va_renderer_tonemap envCfgFail rFresh viewHDR).2.1.va_context =
       VA_INVALID_ID ∧
     (va_renderer_tonemap envCfgFail rFresh viewHDR).2.1.va_config =
       VA_INVALID_ID) ∧
    ((va_renderer_tonemap envCtxFail rFresh viewHDR).1 = false ∧
     (va_renderer_tonemap envCtxFail rFresh viewHDR).2.1.va_context =
       VA_INVALID_ID ∧
     (va_renderer_tonemap envCtxFail rFresh viewHDR).2.1.va_config = 7) :=
  ⟨(C1_context_failure_states envCfgFail rFresh viewHDR smA rfl
      (by decide)).1 rfl,
   (C1_context_failure_states envCtxFail rFresh viewHDR smA rfl
      (by decide)).2 7 rfl rfl⟩

/-- Claim C2 evaluated at its failing input: the session returned by
va_renderer_initialize has va_context = va_config = 0 (zalloc), while the
destroy guard compares with VA_INVALID_ID = 0xffffffff, so
va_renderer_fini issues vaDestroyContext(0) and vaDestroyConfig(0) on the
never-created handles instead of the claimed no-op; the display connection
is still terminated afterwards. -/
theorem C2_fini_fresh_session_destroys :
    va_renderer_init { getDisplayResult := some 9, vaInitStatus := 0 } 3 4 =
      some rFresh ∧
    rFresh.va_context = 0 ∧ rFresh.va_config = 0 ∧
    (0 : Nat) ≠ VA_INVALID_ID ∧
    (va_renderer_fini rFresh).2 =
      [Call.destroyContext 0, Call.destroyConfig 0, Call.terminate] ∧
    Call.terminate ∈ (va_renderer_fini rFresh).2 :=
  ⟨rfl, rfl, rfl, by decide, rfl, by decide⟩

/-- Counterexample to claim C3 as stated: in an environment where the
bridge's vaCreateSurfaces fails and the uninitialized local happens to hold
42, tone_map does not abort: it returns success and still issues both
passes, pass 2 beginning on the unchecked value 42; the bridge returned the
indeterminate 42, not a checked invalid-surface sentinel. -/
theorem C3_counterexample :
    envSrcFail.createSrcSurfaceResult = none ∧
    (va_renderer_tonemap envSrcFail rFresh viewHDR).1 = true ∧
    Call.beginPicture 22 ∈ (va_renderer_tonemap envSrcFail rFresh viewHDR).2.2 ∧
    Call.beginPicture 42 ∈ (va_renderer_tonemap envSrcFail rFresh viewHDR).2.2 ∧
    (42 : Nat) ≠ VA_INVALID_ID :=
  ⟨rfl, rfl, by decide, by decide, by decide⟩

/-- Claim C3 (amended): when bridging the imported buffer fails, the bridge
returns whatever indeterminate value its unwritten local holds, tone_map
performs no check on it, both pipeline passes are still issued (pass 2
begins on that indeterminate value), and tone_map returns success provided
the destination-surface creation succeeds. -/
theorem C3_bridge_failure_not_checked (env : VaEnv) (r : VaRenderer)
    (v : WestonView) (sm : WestonHdrMetadataStatic) (bo : GbmBo) (dst : Nat)
    (hhdr : v.surface.hdr_metadata = some sm)
    (hctx : (r.va_context = VA_INVALID_ID ∨
        r.render_target_format ≠ va_drm_format_to_rt_format DRM_FORMAT_P010) →
      env.createConfigResult.isSome ∧ env.createContextResult.isSome)
    (hbo : va_get_bo_from_view env v = some bo)
    (hsrcfail : env.createSrcSurfaceResult = none)
    (hdst : env.createDstSurfaceResult = some dst) :
    (va_renderer_tonemap env r v).1 = true ∧
    Call.beginPicture env.srcSurfaceIndeterminate ∈
      (va_renderer_tonemap env r v).2.2 ∧
    Call.beginPicture dst ∈ (va_renderer_tonemap env r v).2.2 := by
  by_cases hc : r.va_context = VA_INVALID_ID ∨
      r.render_target_format ≠ va_drm_format_to_rt_format DRM_FORMAT_P010
  · obtain ⟨hcfg, hctxr⟩ := hctx hc
    obtain ⟨cfg, hcfg2⟩ := Option.isSome_iff_exists.mp hcfg
    obtain ⟨ctxid, hctx2⟩ := Option.isSome_iff_exists.mp hctxr
    rw [tonemap_create_eq env r v sm cfg ctxid hhdr hc hcfg2 hctx2,
        passes_success_eq env v sm bo dst hbo hdst,
        bridge_value_none env bo hsrcfail]
    refine ⟨rfl, ?_, ?_⟩ <;> simp
  · push_neg at hc
    rw [tonemap_reuse env r v sm hhdr hc.1 hc.2,
        passes_success_eq env v sm bo dst hbo hdst,
        bridge_value_none env bo hsrcfail]
    refine ⟨rfl, ?_, ?_⟩ <;> simp

/-- Witness for the amended C3 at the concrete failing environment. -/
theorem C3_bridge_failure_not_checked_witness :
    (va_renderer_tonemap envSrcFail rFresh viewHDR).1 = true ∧
    Call.beginPicture envSrcFail.srcSurfaceIndeterminate ∈
      (va_renderer_tonemap envSrcFail rFresh viewHDR).2.2 ∧
    Call.beginPicture 22 ∈ (va_renderer_tonemap envSrcFail rFresh viewHDR).2.2 :=
  C3_bridge_failure_not_checked envSrcFail rFresh viewHDR smA boA 22 rfl
    (fun _ => ⟨rfl, rfl⟩) rfl rfl rfl

lemma destroy_context_counts (r : VaRenderer) :
    (va_renderer_destroy_context r).2.countP Call.isCreateSurfaces = 0 ∧
    (va_renderer_destroy_context r).2.countP Call.isGbmRelease = 0 := by
  obtain ⟨fd, disp, ctx, cfg, fmt, g⟩ := r
  unfold va_renderer_destroy_context
  by_cases h1 : ctx = VA_INVALID_ID <;> by_cases h2 : cfg = VA_INVALID_ID <;>
    simp_all [List.countP_cons, Call.isCreateSurfaces, Call.isGbmRelease]

lemma passes_release_count_zero (env : VaEnv) (v : WestonView)
    (sm : WestonHdrMetadataStatic) :
    (va_tonemap_passes env v sm).2.countP Call.isGbmRelease = 0 := by
  rcases hbo : va_get_bo_from_view env v with _ | bo
  · rw [passes_bo_none env v sm hbo]
    rfl
  · rcases hdst : env.createDstSurfaceResult with _ | dst
    · rw [passes_dst_none env v sm bo hbo hdst, bridge_calls]
      rfl
    · rw [passes_success_eq env v sm bo dst hbo hdst, bridge_calls]
      rfl

/-- Counterexample to claim C5 as stated: with a non-zero dmabuf flag the
call fails and creates no accelerator surface, but the rejection is NOT
made before any accelerator call: the trace of the failing call already
contains five accelerator calls (context destroy/create pair management and
the filter-caps query) issued before the flag test. -/
theorem C5_counterexample :
    envFlagged.dmabufGet = some { dmabufPlain with flags := 1 } ∧
    (va_renderer_tonemap envFlagged rFresh viewHDR).1 = false ∧
    (va_renderer_tonemap envFlagged rFresh viewHDR).2.2 =
      [Call.destroyContext 0, Call.destroyConfig 0,
       Call.createConfig VA_RT_FORMAT_YUV420, Call.createContext 7,
       Call.queryFilterCaps VAProcFilterHighDynamicRangeToneMapping] ∧
    (va_renderer_tonemap envFlagged rFresh viewHDR).2.2.countP
      Call.isCreateSurfaces = 0 ∧
    (va_renderer_tonemap envFlagged rFresh viewHDR).2.2.countP
      Call.isAccel = 5 :=
  ⟨rfl, rfl, rfl, rfl, rfl⟩

/-- Claim C5 (amended): tone_map on a view backed by a dmabuf descriptor
set with any non-zero orientation/ordering flag always fails and never
creates an accelerator surface; the rejection, however, happens only after
the context-management calls and the filter-capability query, so
accelerator calls may already have been issued when it is detected. -/
theorem C5_flagged_dmabuf_rejected (env : VaEnv) (r : VaRenderer)
    (v : WestonView) (b : WestonBuffer) (d : DmabufAttributes)
    (hbuf : v.surface.buffer = some b)
    (hdma : env.dmabufGet = some d)
    (hflags : d.flags ≠ 0) :
    (va_renderer_tonemap env r v).1 = false ∧
    (va_renderer_tonemap env r v).2.2.countP Call.isCreateSurfaces = 0 := by
  have hbo : va_get_bo_from_view env v = none := by
    simp [va_get_bo_from_view, hbuf, hdma, hflags]
  have hd1 := (destroy_context_counts
    { r with render_target_format :=
        va_drm_format_to_rt_format DRM_FORMAT_P010 }).1
  rcases hhdr : v.surface.hdr_metadata with _ | sm
  · rw [tonemap_hdr_none env r v hhdr]
    exact ⟨rfl, rfl⟩
  · by_cases hc : r.va_context = VA_INVALID_ID ∨
        r.render_target_format ≠ va_drm_format_to_rt_format DRM_FORMAT_P010
    · rcases hcfg : env.createConfigResult with _ | cfg
      · rw [tonemap_cfg_fail_eq env r v sm hhdr hc hcfg]
        refine ⟨rfl, ?_⟩
        simp [List.countP_append, List.countP_cons, hd1, Call.isCreateSurfaces]
      · rcases hctx2 : env.createContextResult with _ | ctxid
        · rw [tonemap_ctx_fail_eq env r v sm cfg hhdr hc hcfg hctx2]
          refine ⟨rfl, ?_⟩
          simp [List.countP_append, List.countP_cons, hd1, Call.isCreateSurfaces]
        · rw [tonemap_create_eq env r v sm cfg ctxid hhdr hc hcfg hctx2,
              passes_bo_none env v sm hbo]
          refine ⟨rfl, ?_⟩
          simp [List.countP_append, List.countP_cons, hd1, Call.isCreateSurfaces]
    · push_neg at hc
      rw [tonemap_reuse env r v sm hhdr hc.1 hc.2, passes_bo_none env v sm hbo]
      exact ⟨rfl, rfl⟩

/-- Witness for the amended C5 at the concrete flagged environment. -/
theorem C5_flagged_dmabuf_rejected_witness :
    (va_renderer_tonemap envFlagged rFresh viewHDR).1 = false ∧
    (va_renderer_tonemap envFlagged rFresh viewHDR).2.2.countP
      Call.isCreateSurfaces = 0 :=
  C5_flagged_dmabuf_rejected envFlagged rFresh viewHDR { resource := 1 }
    { dmabufPlain with flags := 1 } rfl rfl (by decide)

/-- Claim C6 evaluated against the code: no exit path of tone_map ever
emits a buffer-object or file-descriptor release (the event vocabulary has
gbmBoDestroy and closeFd and the embedding of the code never produces
them), even though a successful run imports a buffer object and acquires a
file descriptor from it through gbm_bo_get_fd.  The import-scoped handles
are therefore retained past the end of the call, contradicting the
release-before-return requirement. -/
theorem C6_imported_bo_never_released :
    (∀ (env : VaEnv) (r : VaRenderer) (v : WestonView),
      (va_renderer_tonemap env r v).2.2.countP Call.isGbmRelease = 0) ∧
    va_get_bo_from_view envOK viewHDR = some boA ∧
    (va_renderer_tonemap envOK rFresh viewHDR).1 = true ∧
    Call.gbmBoGetFd boA.fd ∈ (va_renderer_tonemap envOK rFresh viewHDR).2.2 := by
  refine ⟨?_, rfl, rfl, by decide⟩
  intro env r v
  have hd2 := (destroy_context_counts
    { r with render_target_format :=
        va_drm_format_to_rt_format DRM_FORMAT_P010 }).2
  rcases hhdr : v.surface.hdr_metadata with _ | sm
  · rw [tonemap_hdr_none env r v hhdr]
    rfl
  · by_cases hc : r.va_context = VA_INVALID_ID ∨
        r.render_target_format ≠ va_drm_format_to_rt_format DRM_FORMAT_P010
    · rcases hcfg : env.createConfigResult with _ | cfg
      · rw [tonemap_cfg_fail_eq env r v sm hhdr hc hcfg]
        simp [List.countP_append, List.countP_cons, hd2, Call.isGbmRelease]
      · rcases hctx2 : env.createContextResult with _ | ctxid
        · rw [tonemap_ctx_fail_eq env r v sm cfg hhdr hc hcfg hctx2]
          simp [List.countP_append, List.countP_cons, hd2, Call.isGbmRelease]
        · rw [tonemap_create_eq env r v sm cfg ctxid hhdr hc hcfg hctx2]
          simp [List.countP_append, List.countP_cons, hd2,
            passes_release_count_zero, Call.isGbmRelease]
    · push_neg at hc
      rw [tonemap_reuse env r v sm hhdr hc.1 hc.2]
      exact passes_release_count_zero env v sm
